import Mathlib

/-!
Shallow embedding of the process-scoped loopback capture engine
(src-cpp/ApplicationLoopback/LoopbackTest.cpp, ApplicationLoopback.cpp)
and the window/process enumerator (src-cpp/ProcessList/ProcessList.cpp).

Platform calls (COM activation, IAudioClient, IAudioCaptureClient,
window enumeration) are modelled by passing their results in explicitly:
each embedded function takes the HRESULTs and data the platform would
return and computes exactly what the source code computes from them,
including which side effects (buffer releases, handle closes, sink
writes) the code performs and in which order.
-/

namespace NativeAudioLoopback

/-- HRESULT values, modelled as signed 32-bit integers embedded in Int. -/
abbrev HRESULT := Int

/-- The success code S_OK. -/
def S_OK : HRESULT := 0

/-- E_FAIL = 0x80004005, read as a signed 32-bit value. -/
def E_FAIL : HRESULT := -2147467259

/-- The FAILED macro: true of an HRESULT whose sign bit is set. -/
def FAILED (hr : HRESULT) : Bool := decide (hr < 0)

/-- The SUCCEEDED macro. -/
def SUCCEEDED (hr : HRESULT) : Bool := !FAILED hr

/-! ## AudioInterfaceActivateHandler::ActivateCompleted
(LoopbackTest.cpp lines 22-56). The platform inputs are the result of
operation->GetActivateResult (its own HRESULT, the activation HRESULT it
reports, and whether the returned IUnknown pointer is non-null) and the
HRESULT of the QueryInterface call on that pointer. -/

/-- Platform-side results observed by ActivateCompleted. -/
structure ActivationOp where
  getResultHr : HRESULT
  activateResult : HRESULT
  punkNonNull : Bool
  queryHr : HRESULT
deriving DecidableEq

/-- What one run of ActivateCompleted returns and which side effects it
performs: whether punkAudioInterface->Release() was called, and whether
the parent session was handed the audio client (OnAudioClientReady). -/
structure ActivateCompletedOutcome where
  hr : HRESULT
  punkReleased : Bool
  parentNotified : Bool
deriving DecidableEq

/-- LoopbackTest.cpp:22-56. The first guard (line 32) returns E_FAIL when
GetActivateResult failed, the activation result failed, or the pointer is
null, without releasing the pointer; the QueryInterface-failure path
(lines 39-43) and the success path (lines 45-55) both release it. -/
def activateCompleted (op : ActivationOp) (parentSet : Bool) : ActivateCompletedOutcome :=
  if FAILED op.getResultHr || FAILED op.activateResult || !op.punkNonNull then
    { hr := E_FAIL, punkReleased := false, parentNotified := false }
  else if FAILED op.queryHr then
    { hr := op.queryHr, punkReleased := true, parentNotified := false }
  else
    { hr := S_OK, punkReleased := true, parentNotified := parentSet }

/-! ## LoopbackCapture::OnAudioClientReady
(LoopbackTest.cpp lines 138-208). Platform inputs are the HRESULTs of
IAudioClient::Initialize, GetBufferSize (with the buffer frame count it
reports), GetService, and Start. -/

/-- The WAVEFORMATEX the session builds (LoopbackTest.cpp:150-156). -/
structure WaveFormat where
  wFormatTag : Nat
  nChannels : Nat
  nSamplesPerSec : Nat
  wBitsPerSample : Nat
  nBlockAlign : Nat
  nAvgBytesPerSec : Nat
deriving DecidableEq

/-- WAVE_FORMAT_PCM. -/
def WAVE_FORMAT_PCM : Nat := 1

/-- The fixed capture format, computed exactly as lines 150-156 do. -/
def captureFormat : WaveFormat :=
  { wFormatTag := WAVE_FORMAT_PCM
  , nChannels := 2
  , nSamplesPerSec := 44100
  , wBitsPerSample := 16
  , nBlockAlign := 2 * 16 / 8
  , nAvgBytesPerSec := 44100 * (2 * 16 / 8) }

/-- The hnsBufferDuration argument passed to IAudioClient::Initialize at
LoopbackTest.cpp:159, in REFERENCE_TIME units of 100 nanoseconds. -/
def bufferDurationHns : Nat := 200000

/-- REFERENCE_TIME units (100 ns) per millisecond. -/
def hnsPerMillisecond : Nat := 10000

/-- The stream buffer duration the session requests, in milliseconds. -/
def requestedBufferMilliseconds : Nat := bufferDurationHns / hnsPerMillisecond

/-- Platform-call results consumed by OnAudioClientReady, in call order. -/
structure AudioClientEnv where
  audioInitHr : HRESULT
  getBufferSizeHr : HRESULT
  bufferSize : Nat
  getServiceHr : HRESULT
  startHr : HRESULT
deriving DecidableEq

/-- The observable outcome of OnAudioClientReady: the HRESULT it returns,
the values of m_capturing and bufferFrameCount afterwards, whether
CreateThread was reached, whether GetService stored a capture client, and
whether IAudioClient::Start was called and succeeded. -/
structure ReadyOutcome where
  hr : HRESULT
  capturing : Bool
  threadSpawned : Bool
  captureClientAcquired : Bool
  streamStarted : Bool
  bufferFrameCount : Nat
deriving DecidableEq

/-- LoopbackTest.cpp:138-208. Control flow as written: the null check at
line 144 returns E_FAIL; the HRESULT of Initialize (line 158) is stored in
hr but overwritten by GetBufferSize (line 165) before any FAILED check, so
an Initialize failure is never observed; GetBufferSize failure returns at
line 169 (the second check of the same hr at line 174 can never fire);
GetService failure returns at line 182; Start failure returns at line 199;
otherwise m_capturing is set and the capture thread is created. -/
def onAudioClientReady (audioClientNull : Bool) (env : AudioClientEnv) : ReadyOutcome :=
  if audioClientNull then
    { hr := E_FAIL, capturing := false, threadSpawned := false
    , captureClientAcquired := false, streamStarted := false, bufferFrameCount := 0 }
  else
    let hrAfterGetBufferSize := env.getBufferSizeHr
    if FAILED hrAfterGetBufferSize then
      { hr := hrAfterGetBufferSize, capturing := false, threadSpawned := false
      , captureClientAcquired := false, streamStarted := false, bufferFrameCount := 0 }
    else if FAILED env.getServiceHr then
      { hr := env.getServiceHr, capturing := false, threadSpawned := false
      , captureClientAcquired := false, streamStarted := false
      , bufferFrameCount := env.bufferSize }
    else if FAILED env.startHr then
      { hr := env.startHr, capturing := false, threadSpawned := false
      , captureClientAcquired := true, streamStarted := false
      , bufferFrameCount := env.bufferSize }
    else
      { hr := env.startHr, capturing := true, threadSpawned := true
      , captureClientAcquired := true, streamStarted := true
      , bufferFrameCount := env.bufferSize }

/-! ## LoopbackCapture::StopCapture
(LoopbackTest.cpp lines 210-229). The session state it reads and writes
is m_capturing, m_captureThread, m_captureEvent; the platform input is the
HRESULT IAudioClient::Stop would return. -/

/-- Side effects StopCapture can perform, in the order performed.
joinThread (a blocking wait for capture-thread exit, e.g.
WaitForSingleObject on the thread handle) is in the vocabulary because the
specification demands it; the source performs no such wait. -/
inductive StopEffect
  | closeThreadHandle
  | streamStop
  | closeCaptureEvent
  | joinThread
deriving DecidableEq

/-- The session fields StopCapture touches, plus the HRESULT the stream
would return from IAudioClient::Stop. -/
structure SessionState where
  capturing : Bool
  captureThreadNonNull : Bool
  captureEventNonNull : Bool
  streamStopHr : HRESULT
deriving DecidableEq

/-- The returned HRESULT, the state afterwards, and the ordered list of
side effects performed. -/
structure StopOutcome where
  hr : HRESULT
  state : SessionState
  effects : List StopEffect
deriving DecidableEq

/-- LoopbackTest.cpp:210-229. If m_capturing is false it returns S_OK
immediately (lines 212-215) touching nothing. Otherwise it clears
m_capturing, closes and nulls the thread handle if non-null (lines
218-223), calls m_audioClient->Stop(), closes and nulls m_captureEvent,
and returns the Stop HRESULT. No wait on the capture thread occurs. -/
def stopCapture (s : SessionState) : StopOutcome :=
  if !s.capturing then
    { hr := S_OK, state := s, effects := [] }
  else
    let threadEffects :=
      if s.captureThreadNonNull then [StopEffect.closeThreadHandle] else []
    { hr := s.streamStopHr
    , state := { capturing := false, captureThreadNonNull := false
               , captureEventNonNull := false, streamStopHr := s.streamStopHr }
    , effects := threadEffects ++ [StopEffect.streamStop, StopEffect.closeCaptureEvent] }

/-! ## LoopbackCapture::CaptureThread
(LoopbackTest.cpp lines 238-308). The live loop body is: Sleep(10), then
GetNextPacketSize; on a FAILED result, continue; on success the obtained
packetLength is never used — the drain body (GetBuffer, the hand-off of
the buffer, ReleaseBuffer, lines 283-304) is commented out in the source.
The loop runs while m_capturing is observed true. A run is modelled by
the finite script of GetNextPacketSize results returned on the iterations
for which m_capturing was observed true; after the script the flag reads
false and the loop exits. -/

/-- Result of one GetNextPacketSize call: ok with the reported packet
length, or err with a FAILED HRESULT. -/
inductive SizeResult
  | ok (packetLength : Nat)
  | err (hr : HRESULT)
deriving DecidableEq

/-- Observable events of the capture thread. getBuffer, sinkWrite and
releaseBuffer are in the vocabulary because the specification demands
them; sessionFailed stands for a transition of the session to a failed
state. The source emits none of these four. -/
inductive ThreadEvent
  | sleep (ms : Nat)
  | sizeQuery (r : SizeResult)
  | getBuffer
  | sinkWrite
  | releaseBuffer (frames : Nat)
  | sessionFailed
  | exitLoop
deriving DecidableEq

/-- One iteration of the while body (LoopbackTest.cpp:261-307): Sleep(10)
then the GetNextPacketSize call. Both the FAILED branch (continue, lines
278-281) and the success branch perform nothing further. -/
def captureIteration (r : SizeResult) : List ThreadEvent :=
  match r with
  | SizeResult.err _ => [ThreadEvent.sleep 10, ThreadEvent.sizeQuery r]
  | SizeResult.ok _ => [ThreadEvent.sleep 10, ThreadEvent.sizeQuery r]

/-- The event trace of a capture-thread run over a script of
GetNextPacketSize results, ending when m_capturing reads false. -/
def captureThreadTrace (script : List SizeResult) : List ThreadEvent :=
  match script with
  | [] => [ThreadEvent.exitLoop]
  | r :: rest => captureIteration r ++ captureThreadTrace rest

/-- True of sizeQuery events. -/
def isSizeQuery (e : ThreadEvent) : Bool :=
  match e with
  | ThreadEvent.sizeQuery _ => true
  | _ => false

/-- True of sinkWrite events. -/
def isSinkWrite (e : ThreadEvent) : Bool :=
  match e with
  | ThreadEvent.sinkWrite => true
  | _ => false

/-- True of releaseBuffer events. -/
def isReleaseBuffer (e : ThreadEvent) : Bool :=
  match e with
  | ThreadEvent.releaseBuffer _ => true
  | _ => false

/-! ## wmain argument handling
(ApplicationLoopback.cpp lines 12-32). args is argv with the program name
dropped, so the first user argument argv[1] is the entry at index 0 and
the second user argument argv[2] is the entry at index 1; argc is at
least 3 exactly when index 1 is in range. -/

/-- ApplicationLoopback.cpp:27-32: include starts true; when argc is at
least 3 and argv[2] compares equal to the wide string exclude, include
becomes false; nothing else changes it. -/
def parseIncludeTree (args : List String) : Bool :=
  match args[1]? with
  | some second => if second = "exclude" then false else true
  | none => true

/-! ## ProcessList window enumeration
(ProcessList.cpp lines 31-111). A window as the platform enumerates it:
its handle, visibility, full title text, and owning process id. Titles
are ANSI byte strings (GetWindowTextA); one Char stands for one byte. -/

/-- One enumerated top-level window as the platform presents it. -/
structure RawWindow where
  handle : Nat
  visible : Bool
  title : String
  pid : Nat
deriving DecidableEq

/-- GetWindowTextA into a buffer of bufSize bytes copies at most
bufSize - 1 characters of the title plus a terminator. -/
def getWindowTextA (title : String) (bufSize : Nat) : String :=
  String.mk (title.toList.take (bufSize - 1))

/-- One output record as EnumWindowsProc builds it (ProcessList.cpp:44-49):
windowHandle, the truncated windowTitle, and processId. processName is
also collected but never printed, so it is not part of the record. -/
structure WindowInfo where
  windowHandle : Nat
  windowTitle : String
  processId : Nat
deriving DecidableEq

/-- EnumWindowsProc (ProcessList.cpp:31-76) for one window: if the window
is visible, read its title through a char[256] buffer; if the (possibly
truncated) title is non-empty, append a record; otherwise skip. The
callback always returns TRUE, so enumeration continues over every window. -/
def enumWindowsProc (w : RawWindow) : Option WindowInfo :=
  if w.visible then
    let windowTitle := getWindowTextA w.title 256
    if windowTitle.length > 0 then
      some { windowHandle := w.handle, windowTitle := windowTitle, processId := w.pid }
    else
      none
  else
    none

/-- EnumWindows over the platform snapshot, collecting records in
enumeration order (ProcessList.cpp:96). -/
def enumWindows (ws : List RawWindow) : List WindowInfo :=
  ws.filterMap enumWindowsProc

/-- The second pass in main (ProcessList.cpp:99-106): keep only records
with a non-empty title, preserving order. -/
def filterTitled (apps : List WindowInfo) : List WindowInfo :=
  apps.filter (fun a => !a.windowTitle.isEmpty)

/-- PrintApplicationsWithWindows prints one line per record:
processId, windowHandle and windowTitle separated by the character 59
(ProcessList.cpp:78-87). -/
def printLine (a : WindowInfo) : String :=
  toString a.processId ++ ";" ++ toString a.windowHandle ++ ";" ++ a.windowTitle

/-- The full program output of ProcessList main: one line per surviving
record, in enumeration order. -/
def processListOutput (ws : List RawWindow) : List String :=
  (filterTitled (enumWindows ws)).map printLine

/-! ## Concrete states and helper lemmas shared by the claims. -/

/-- A session in the Running shape: capturing, with a live thread handle
and event handle, whose stream would stop cleanly. -/
def runningSession : SessionState :=
  { capturing := true, captureThreadNonNull := true
  , captureEventNonNull := true, streamStopHr := S_OK }

/-- An activation whose platform call succeeded and whose reported
activation result failed while the returned pointer is non-null. -/
def leakOp : ActivationOp :=
  { getResultHr := S_OK, activateResult := E_FAIL, punkNonNull := true, queryHr := S_OK }

/-- An environment where IAudioClient::Initialize fails and every later
call succeeds. -/
def envInitFails : AudioClientEnv :=
  { audioInitHr := E_FAIL, getBufferSizeHr := S_OK, bufferSize := 1056
  , getServiceHr := S_OK, startHr := S_OK }

/-- A capture-thread script with three consecutive GetNextPacketSize
failures followed by a successful call. -/
def threeFailScript : List SizeResult :=
  [SizeResult.err E_FAIL, SizeResult.err E_FAIL, SizeResult.err E_FAIL, SizeResult.ok 0]

/-- A visible window with an empty title. -/
def emptyTitleWindow : RawWindow :=
  { handle := 1, visible := true, title := "", pid := 7 }

/-- A visible window with a short title. -/
def sampleWindow : RawWindow :=
  { handle := 5, visible := true, title := "hello", pid := 42 }

/-- The predicate under which EnumWindowsProc keeps a window: visible and
with a non-empty truncated title. -/
def titledVisible (w : RawWindow) : Bool :=
  w.visible && decide (0 < (getWindowTextA w.title 256).length)

/-- The record EnumWindowsProc builds for a kept window. -/
def mkRecord (w : RawWindow) : WindowInfo :=
  { windowHandle := w.handle, windowTitle := getWindowTextA w.title 256, processId := w.pid }

/-- The collected records are exactly the kept windows mapped to their
records, in enumeration order. -/
theorem enumWindows_eq_filter_map (ws : List RawWindow) :
    enumWindows ws = (ws.filter titledVisible).map mkRecord := by
  induction ws with
  | nil => rfl
  | cons w t ih =>
    unfold enumWindows at ih ⊢
    rw [List.filterMap_cons, List.filter_cons]
    cases hv : w.visible with
    | false => simp [enumWindowsProc, hv, titledVisible, ih]
    | true =>
      cases hl : decide (0 < (getWindowTextA w.title 256).length) with
      | false =>
        simp only [titledVisible, hv, hl, Bool.true_and, Bool.false_eq_true, if_false]
        have hl' : ¬ 0 < (getWindowTextA w.title 256).length := of_decide_eq_false hl
        simp [enumWindowsProc, hv, hl', ih]
      | true =>
        simp only [titledVisible, hv, hl, Bool.true_and, if_true]
        have hl' : 0 < (getWindowTextA w.title 256).length := of_decide_eq_true hl
        simp [enumWindowsProc, hv, hl', ih, mkRecord]

/-- Every record a kept window produces carries a non-empty title. -/
theorem mkRecord_title_nonempty (w : RawWindow) (h : titledVisible w = true) :
    (mkRecord w).windowTitle.isEmpty = false := by
  have hl : 0 < (getWindowTextA w.title 256).length := by
    unfold titledVisible at h
    exact of_decide_eq_true (Bool.and_elim_right h)
  have hne : (mkRecord w).windowTitle ≠ "" := by
    intro he
    have hz : getWindowTextA w.title 256 = "" := he
    rw [hz] at hl
    simp at hl
  cases hb : (mkRecord w).windowTitle.isEmpty with
  | false => rfl
  | true => exact absurd ((String.isEmpty_iff _).mp hb) hne

/-! ## The claims. -/

/-- Claim C1 (code bug evidence): on a stream with one queued packet
(GetNextPacketSize reports 960 frames), the capture-thread trace holds
only the sleep, the size query and the loop exit: no GetBuffer, no
hand-off to the sink, no buffer release — the sink observes zero of the
queued buffers, not one per packet. -/
theorem c1_drain_loop_delivers_nothing :
    captureThreadTrace [SizeResult.ok 960] =
      [ThreadEvent.sleep 10, ThreadEvent.sizeQuery (SizeResult.ok 960), ThreadEvent.exitLoop] ∧
    (captureThreadTrace [SizeResult.ok 960]).countP isSinkWrite = 0 ∧
    (captureThreadTrace [SizeResult.ok 960]).countP isReleaseBuffer = 0 ∧
    ThreadEvent.getBuffer ∉ captureThreadTrace [SizeResult.ok 960] := by
  decide

/-- Claim C2 (counterexample): on a Running session, StopCapture performs
closeThreadHandle, streamStop and closeCaptureEvent and nothing else: no
join of the capture thread occurs before the stream is stopped, refuting
the claim that Stop blocks until the thread has exited. -/
theorem c2_counterexample :
    runningSession.capturing = true ∧
    (stopCapture runningSession).effects =
      [StopEffect.closeThreadHandle, StopEffect.streamStop, StopEffect.closeCaptureEvent] ∧
    StopEffect.joinThread ∉ (stopCapture runningSession).effects := by
  decide

/-- Claim C2 (amended): on a capturing session, StopCapture clears the
capturing flag, closes the thread handle when non-null without waiting
for the thread, then stops the stream and closes the capture event,
returning the stream-stop HRESULT; no join is performed. -/
theorem c2_stop_signals_without_join (s : SessionState) (h : s.capturing = true) :
    (stopCapture s).hr = s.streamStopHr ∧
    (stopCapture s).state.capturing = false ∧
    (stopCapture s).effects =
      (if s.captureThreadNonNull then [StopEffect.closeThreadHandle] else []) ++
        [StopEffect.streamStop, StopEffect.closeCaptureEvent] ∧
    StopEffect.joinThread ∉ (stopCapture s).effects := by
  cases hc : s.captureThreadNonNull <;> simp [stopCapture, h, hc]

/-- Witness for C2 (amended) at the concrete Running session. -/
theorem c2_stop_signals_without_join_witness :
    (stopCapture runningSession).hr = runningSession.streamStopHr ∧
    (stopCapture runningSession).state.capturing = false ∧
    (stopCapture runningSession).effects =
      (if runningSession.captureThreadNonNull then [StopEffect.closeThreadHandle] else []) ++
        [StopEffect.streamStop, StopEffect.closeCaptureEvent] ∧
    StopEffect.joinThread ∉ (stopCapture runningSession).effects :=
  c2_stop_signals_without_join runningSession rfl

/-- Claim C3 (code bug evidence): when IAudioClient::Initialize fails with
E_FAIL but the later calls succeed, OnAudioClientReady still sets the
capturing flag, spawns the capture thread and returns S_OK, because the
Initialize HRESULT is overwritten before any FAILED check. -/
theorem c3_init_failure_ignored :
    FAILED envInitFails.audioInitHr = true ∧
    (onAudioClientReady false envInitFails).capturing = true ∧
    (onAudioClientReady false envInitFails).threadSpawned = true ∧
    (onAudioClientReady false envInitFails).hr = S_OK := by
  decide

/-- Claim C4 (counterexample): the hnsBufferDuration argument of 200000
hundred-nanosecond units is 20 milliseconds of audio, not at least 200. -/
theorem c4_counterexample :
    requestedBufferMilliseconds = 20 ∧
    ¬ 200 * hnsPerMillisecond ≤ bufferDurationHns := by
  decide

/-- Claim C4 (amended): the session requests a stream buffer of 200000
hundred-nanosecond units — 20 milliseconds — at the fixed capture format
of 2 channels, 16 bits per sample, 44100 Hz. -/
theorem c4_buffer_duration_is_20ms :
    captureFormat.nChannels = 2 ∧
    captureFormat.wBitsPerSample = 16 ∧
    captureFormat.nSamplesPerSec = 44100 ∧
    bufferDurationHns = 200000 ∧
    requestedBufferMilliseconds = 20 := by
  decide

/-- Claim C5 (counterexample): after three consecutive GetNextPacketSize
failures the thread neither fails the session nor exits: the fourth
iteration still runs its size query (four queries in the trace) and no
sessionFailed event occurs. -/
theorem c5_counterexample :
    ThreadEvent.sessionFailed ∉ captureThreadTrace threeFailScript ∧
    (captureThreadTrace threeFailScript).countP isSizeQuery = 4 := by
  decide

/-- Claim C5 (amended): a per-packet size-query failure only skips the
iteration; no number of consecutive failures fails the session or ends
the thread — every scripted iteration runs its query, sessionFailed never
occurs, and the loop exits only when the capturing flag reads false. -/
theorem c5_errors_never_escalate (script : List SizeResult) :
    ThreadEvent.sessionFailed ∉ captureThreadTrace script ∧
    (captureThreadTrace script).countP isSizeQuery = script.length ∧
    ThreadEvent.exitLoop ∈ captureThreadTrace script := by
  induction script with
  | nil => decide
  | cons r rest ih =>
    obtain ⟨h1, h2, h3⟩ := ih
    refine ⟨?_, ?_, ?_⟩
    · cases r <;> simp [captureThreadTrace, captureIteration, h1]
    · cases r <;>
        simp [captureThreadTrace, captureIteration, isSizeQuery, List.countP_cons, h2]
    · cases r <;> simp [captureThreadTrace, captureIteration, h3]

/-- Claim C6: StopCapture is idempotent. When the session is not
capturing it returns S_OK, changes nothing and performs no effect; and
provided the stream stops cleanly when asked, two consecutive calls both
return S_OK, the second changing nothing and performing no effect. -/
theorem c6_stop_idempotent (s : SessionState) (h : s.capturing = true → s.streamStopHr = S_OK) :
    (stopCapture s).hr = S_OK ∧
    (stopCapture s).state.capturing = false ∧
    (stopCapture (stopCapture s).state).hr = S_OK ∧
    (stopCapture (stopCapture s).state).state = (stopCapture s).state ∧
    (stopCapture (stopCapture s).state).effects = [] ∧
    (s.capturing = false → (stopCapture s).state = s ∧ (stopCapture s).effects = []) := by
  cases hc : s.capturing with
  | false => simp [stopCapture, hc]
  | true => simp [stopCapture, hc, h hc]

/-- Witness for C6 at the concrete Running session. -/
theorem c6_stop_idempotent_witness :
    (stopCapture runningSession).hr = S_OK ∧
    (stopCapture runningSession).state.capturing = false ∧
    (stopCapture (stopCapture runningSession).state).hr = S_OK ∧
    (stopCapture (stopCapture runningSession).state).state = (stopCapture runningSession).state ∧
    (stopCapture (stopCapture runningSession).state).effects = [] ∧
    (runningSession.capturing = false →
      (stopCapture runningSession).state = runningSession ∧
      (stopCapture runningSession).effects = []) :=
  c6_stop_idempotent runningSession (fun _ => rfl)

/-- Claim C7 (counterexample): when GetActivateResult succeeds but
reports a failed activation result alongside a non-null interface
pointer, ActivateCompleted returns through the first guard without
calling Release on that pointer. -/
theorem c7_counterexample :
    leakOp.punkNonNull = true ∧
    (activateCompleted leakOp true).punkReleased = false := by
  decide

/-- Claim C7 (amended): ActivateCompleted releases the returned interface
pointer exactly on the paths past the first guard (the capability-query
failure path and the success path); the early-return path — platform
failure, failed activation result, or null pointer — performs no
release. -/
theorem c7_release_only_past_first_guard (op : ActivationOp) (parentSet : Bool) :
    (activateCompleted op parentSet).punkReleased =
      !(FAILED op.getResultHr || FAILED op.activateResult || !op.punkNonNull) := by
  cases hg : (FAILED op.getResultHr || FAILED op.activateResult || !op.punkNonNull) with
  | true => simp [activateCompleted, hg]
  | false =>
    cases hq : FAILED op.queryHr <;> simp [activateCompleted, hg, hq]

/-- Claim C8 (counterexample): a visible window with an empty title
produces no output record, so the output does not have one record per
visible window. -/
theorem c8_counterexample :
    emptyTitleWindow.visible = true ∧ processListOutput [emptyTitleWindow] = [] := by
  decide

/-- Claim C8 (amended): the output has exactly one line per visible
window whose truncated title is non-empty, in enumeration order with no
sorting and no deduplication, each line the processId, windowHandle and
windowTitle fields joined by the separator. -/
theorem c8_one_line_per_titled_visible_window (ws : List RawWindow) :
    processListOutput ws = ((ws.filter titledVisible).map mkRecord).map printLine := by
  unfold processListOutput
  rw [enumWindows_eq_filter_map]
  have hall : filterTitled ((ws.filter titledVisible).map mkRecord) =
      (ws.filter titledVisible).map mkRecord := by
    unfold filterTitled
    refine List.filter_eq_self.mpr ?_
    intro a ha
    obtain ⟨w, hw, rfl⟩ := List.mem_map.mp ha
    have hkept : titledVisible w = true := (List.mem_filter.mp hw).2
    rw [mkRecord_title_nonempty w hkept]
    rfl
  rw [hall]

/-- Claim C9: the capture executable treats the process tree as included
unless the second user argument is present and is exactly the string
exclude; includeDescendants is false precisely in that case. -/
theorem c9_include_iff_second_arg_exclude (args : List String) :
    parseIncludeTree args = false ↔ args[1]? = some "exclude" := by
  cases h : args[1]? with
  | none => simp [parseIncludeTree, h]
  | some second =>
    by_cases hs : second = "exclude" <;> simp [parseIncludeTree, h, hs]

/-- Claim C10: every collected record carries a title of at most 255
characters (bytes, for the ANSI call) that is non-empty; the records are
exactly the visible windows with a non-empty truncated title, each
carrying the first 255 bytes of its window text — longer titles are
truncated and empty-titled windows are omitted. -/
theorem c10_titles_truncated_nonempty (ws : List RawWindow) :
    (∀ rec ∈ enumWindows ws, rec.windowTitle.length ≤ 255 ∧ rec.windowTitle ≠ "") ∧
    enumWindows ws = (ws.filter titledVisible).map mkRecord := by
  refine ⟨?_, enumWindows_eq_filter_map ws⟩
  intro rec hrec
  rw [enumWindows_eq_filter_map] at hrec
  obtain ⟨w, hw, rfl⟩ := List.mem_map.mp hrec
  have hkept : titledVisible w = true := (List.mem_filter.mp hw).2
  constructor
  · show (getWindowTextA w.title 256).length ≤ 255
    unfold getWindowTextA
    rw [String.length_mk]
    exact (List.length_take_le (256 - 1) w.title.toList).trans (by norm_num)
  · intro hempty
    have hne : (mkRecord w).windowTitle.isEmpty = false := mkRecord_title_nonempty w hkept
    rw [hempty] at hne
    have htrue : ("" : String).isEmpty = true := rfl
    rw [htrue] at hne
    exact absurd hne (by decide)

end NativeAudioLoopback
